import Mathlib

/-!
Shallow embedding of the cloud-conveyor core crate: the data model (lib.rs),
the pipeline actions (pipelining.rs), the webhook trigger matching
(webhook.rs) and the pipeline state machine (state_machine.rs).

Rust `Vec` is modelled by `List` (push appends at the back, `Vec::pop`
removes the back element, `insert(0, x)` prepends).  Mutation is modelled by
explicit state passing.  `panic!`-like unwraps and `todo!` bodies are
modelled by `Option` results where `none` stands for the panic.
-/

namespace CC

/-- ApprovalGroup from lib.rs: only the Slack variant exists. -/
inductive ApprovalGroup
| slack (people : List String)
deriving DecidableEq

/-- Account from lib.rs. -/
structure Account where
  name : String
  id : Nat
  regions : List String
deriving DecidableEq

/-- Stage from lib.rs. -/
structure Stage where
  name : String
  approval_group : Option ApprovalGroup
  account : Account
deriving DecidableEq

/-- Trigger from lib.rs. -/
inductive Trigger
| pr (deploy : Bool)
| merge (to_ : String) (from_ : Option String) (stages : List String)
| tag (pattern : String) (stages : List String)
deriving DecidableEq

/-- Application from lib.rs. -/
structure Application where
  org : String
  app : String
  accounts : List Account
  default_account_index : Option Nat
  stages : List Stage
  triggers : List Trigger
  approval_groups : List ApprovalGroup
deriving DecidableEq

/-- Application::full_name from lib.rs: `format!("{}/{}", org, app)`. -/
def Application.full_name (a : Application) : String :=
  a.org ++ "/" ++ a.app

/-- VcsEvent from webhook.rs. -/
inductive VcsEvent
| merge (to_branch from_branch sha : String)
| tagPush (tag sha : String)
| pullRequestCreate (source_branch : String) (pr_number : Nat) (sha : String)
| pullRequestUpdate (source_branch : String) (pr_number : Nat) (sha : String)
| pullRequestComplete (pr_number : Nat) (merged : Bool)
deriving DecidableEq

/-- BuildStatus from build.rs. -/
inductive BuildStatus
| succeeded (logs : String)
| failed (logs : String) (error : Option String)
| pending
deriving DecidableEq

/-- DeployStatus from deploy.rs. -/
inductive DeployStatus
| complete
| failed
| pending
deriving DecidableEq

/-- TeardownStatus from teardown.rs. -/
inductive TeardownStatus
| complete
| failed
| pending
deriving DecidableEq

/-- ActionResult from pipelining.rs. -/
inductive ActionResult
| success
| failed
| failedAllow
| canceled
deriving DecidableEq

/-- BuildPollError from build.rs. -/
inductive BuildPollError
| credentials
| other (info : String)
deriving DecidableEq

/-- DeployPollError from deploy.rs. -/
inductive DeployPollError
| credentials
| other (info : String)
deriving DecidableEq

/-- TeardownPollError from teardown.rs. -/
inductive TeardownPollError
| credentials
| cannotDelete
| other (info : String)
deriving DecidableEq

/-- The dynamic `failure::Error` used by the Perform trait and the state
machine, holding whichever substrate error was converted into it. -/
inductive Error
| buildPoll (e : BuildPollError)
| deployPoll (e : DeployPollError)
| teardownPoll (e : TeardownPollError)
deriving DecidableEq

/-- The Build action struct from pipelining.rs. -/
structure Build where
  sha : String
  repo : String
  result : Option BuildStatus
deriving DecidableEq

/-- Build::new from pipelining.rs: first parameter is `sha`, second is
`repo`; the result slot starts out empty. -/
def Build.new (sha repo : String) : Build :=
  { sha := sha, repo := repo, result := none }

/-- The Deploy action struct from pipelining.rs. -/
structure Deploy where
  stage : Stage
  repo : String
  sha : String
  result : Option DeployStatus
deriving DecidableEq

/-- Deploy::new from pipelining.rs. -/
def Deploy.new (stage : Stage) (repo sha : String) : Deploy :=
  { stage := stage, repo := repo, sha := sha, result := none }

/-- The Teardown action struct from pipelining.rs. -/
structure Teardown where
  stage : Stage
  repo : String
  result : Option TeardownStatus
deriving DecidableEq

/-- Teardown::new from pipelining.rs. -/
def Teardown.new (stage : Stage) (repo : String) : Teardown :=
  { stage := stage, repo := repo, result := none }

/-- The Approval action struct from pipelining.rs. -/
structure Approval where
  approval_group : ApprovalGroup
  stage_name : String
  sha : String
  app_name : String
deriving DecidableEq

/-- A value of type `Box<dyn Perform>`: one of the four concrete action
structs that implement the Perform trait in pipelining.rs. -/
inductive Action
| approval (a : Approval)
| build (b : Build)
| deploy (d : Deploy)
| teardown (t : Teardown)
deriving DecidableEq

/-- `PartialEq for Box<dyn Perform>` from pipelining.rs: `box_eq` downcasts
the other action to the same concrete type (different concrete types compare
unequal) and then compares with the derived `PartialEq` of that struct,
which compares every field, the `result` slot included. -/
def box_eq : Action → Action → Bool
| Action.approval x, Action.approval y =>
    decide (x.approval_group = y.approval_group) && decide (x.stage_name = y.stage_name)
      && decide (x.sha = y.sha) && decide (x.app_name = y.app_name)
| Action.build x, Action.build y =>
    decide (x.sha = y.sha) && decide (x.repo = y.repo) && decide (x.result = y.result)
| Action.deploy x, Action.deploy y =>
    decide (x.stage = y.stage) && decide (x.repo = y.repo)
      && decide (x.sha = y.sha) && decide (x.result = y.result)
| Action.teardown x, Action.teardown y =>
    decide (x.stage = y.stage) && decide (x.repo = y.repo) && decide (x.result = y.result)
| _, _ => false

/-- Pipeline from pipelining.rs. -/
structure Pipeline where
  pending_actions : List Action
  completed_actions : List Action
  action_results : List ActionResult
deriving DecidableEq

/-- Pipeline::empty from pipelining.rs. -/
def Pipeline.empty : Pipeline :=
  { pending_actions := [], completed_actions := [], action_results := [] }

/-- Pipeline::add_action from pipelining.rs: push at the back of pending,
but only when no pending entry already compares equal (`Vec::contains`). -/
def Pipeline.add_action (p : Pipeline) (action : Action) : Pipeline :=
  if !(p.pending_actions.any (fun y => box_eq y action)) then
    { p with pending_actions := p.pending_actions ++ [action] }
  else
    p

/-- Pipeline::add_immediate_action from pipelining.rs: `insert(0, action)`. -/
def Pipeline.add_immediate_action (p : Pipeline) (action : Action) : Pipeline :=
  { p with pending_actions := action :: p.pending_actions }

/-- Pipeline::pop_next_action from pipelining.rs: `self.pending_actions.pop()`,
i.e. remove and return the back element of the pending vector. -/
def Pipeline.pop_next_action (p : Pipeline) : Option Action × Pipeline :=
  match p.pending_actions.getLast? with
  | none => (none, p)
  | some a => (some a, { p with pending_actions := p.pending_actions.dropLast })

/-- Pipeline::complete_action from pipelining.rs. -/
def Pipeline.complete_action (p : Pipeline) (action : Action) (action_result : ActionResult) :
    Pipeline :=
  { p with
    completed_actions := p.completed_actions ++ [action]
    action_results := p.action_results ++ [action_result] }

/-- Pipeline::cancel from pipelining.rs: repeatedly pop and complete with
`Canceled` until pending is empty. -/
def Pipeline.cancel (p : Pipeline) : Pipeline :=
  match h : p.pop_next_action with
  | (some a, p') => Pipeline.cancel (p'.complete_action a ActionResult.canceled)
  | (none, _) => p
termination_by p.pending_actions.length
decreasing_by
  simp only [Pipeline.complete_action]
  unfold Pipeline.pop_next_action at h
  cases hl : p.pending_actions.getLast? with
  | none => rw [hl] at h; simp at h
  | some b =>
    rw [hl] at h
    simp only [Prod.mk.injEq, Option.some.injEq] at h
    obtain ⟨hba, hp⟩ := h
    rw [← hp]
    have hne : p.pending_actions ≠ [] := by
      intro hnil
      rw [hnil] at hl
      simp at hl
    simp only [List.length_dropLast]
    have hpos : 0 < p.pending_actions.length := List.length_pos.mpr hne
    omega


/-- The runtime context from runtime.rs, as consumed by the Perform
implementations in pipelining.rs: a bundle of substrate capabilities
(`ctx.builder`, `ctx.infrastructure`, `ctx.teardown`).  Each capability is a
start/check pair; here each is an oracle function from the action data to
the substrate's answer. -/
structure RuntimeContext where
  start_build : Build → Except BuildPollError Unit
  check_build : Build → Except BuildPollError BuildStatus
  start_deployment : Deploy → Except DeployPollError Unit
  check_deployment : Deploy → Except DeployPollError DeployStatus
  start_teardown : Teardown → Except TeardownPollError Unit
  check_teardown : Teardown → Except TeardownPollError TeardownStatus

/-- `impl Perform for Build`, `start`: delegate to the builder substrate,
converting the substrate error into `failure::Error`. -/
def Build.start (b : Build) (ctx : RuntimeContext) : Except Error Unit :=
  match ctx.start_build b with
  | Except.ok u => Except.ok u
  | Except.error e => Except.error (Error.buildPoll e)

/-- `impl Perform for Build`, `is_done`: poll the builder substrate;
`Pending` maps to `Ok(false)`, any other status to `Ok(true)`.  Note that
the checked status is only inspected, never stored into `b.result`. -/
def Build.is_done (b : Build) (ctx : RuntimeContext) : Except Error Bool :=
  match ctx.check_build b with
  | Except.ok BuildStatus.pending => Except.ok false
  | Except.ok _ => Except.ok true
  | Except.error reason => Except.error (Error.buildPoll reason)

/-- `impl Perform for Build`, `get_result`: `self.result.as_ref().unwrap()`
projected into `ActionResult`; `none` models the panic of `unwrap` when the
result slot is still empty. -/
def Build.get_result (b : Build) : Option ActionResult :=
  match b.result with
  | some (BuildStatus.succeeded _) => some ActionResult.success
  | some _ => some ActionResult.failed
  | none => none

/-- `impl Perform for Deploy`, `start`. -/
def Deploy.start (d : Deploy) (ctx : RuntimeContext) : Except Error Unit :=
  match ctx.start_deployment d with
  | Except.ok u => Except.ok u
  | Except.error e => Except.error (Error.deployPoll e)

/-- `impl Perform for Deploy`, `is_done`. -/
def Deploy.is_done (d : Deploy) (ctx : RuntimeContext) : Except Error Bool :=
  match ctx.check_deployment d with
  | Except.ok DeployStatus.pending => Except.ok false
  | Except.ok _ => Except.ok true
  | Except.error reason => Except.error (Error.deployPoll reason)

/-- `impl Perform for Deploy`, `get_result`. -/
def Deploy.get_result (d : Deploy) : Option ActionResult :=
  match d.result with
  | some DeployStatus.complete => some ActionResult.success
  | some _ => some ActionResult.failed
  | none => none

/-- `impl Perform for Teardown`, `start`. -/
def Teardown.start (t : Teardown) (ctx : RuntimeContext) : Except Error Unit :=
  match ctx.start_teardown t with
  | Except.ok u => Except.ok u
  | Except.error e => Except.error (Error.teardownPoll e)

/-- `impl Perform for Teardown`, `is_done`. -/
def Teardown.is_done (t : Teardown) (ctx : RuntimeContext) : Except Error Bool :=
  match ctx.check_teardown t with
  | Except.ok TeardownStatus.pending => Except.ok false
  | Except.ok _ => Except.ok true
  | Except.error reason => Except.error (Error.teardownPoll reason)

/-- `impl Perform for Teardown`, `get_result`. -/
def Teardown.get_result (t : Teardown) : Option ActionResult :=
  match t.result with
  | some TeardownStatus.complete => some ActionResult.success
  | some _ => some ActionResult.failed
  | none => none

/-- Dynamic dispatch of `Perform::start` on a `Box<dyn Perform>`.  The
`Approval` implementation is `todo!()`, a panic, modelled by `none`. -/
def Action.start (a : Action) (ctx : RuntimeContext) : Option (Except Error Unit) :=
  match a with
  | Action.approval _ => none
  | Action.build b => some (b.start ctx)
  | Action.deploy d => some (d.start ctx)
  | Action.teardown t => some (t.start ctx)

/-- Dynamic dispatch of `Perform::is_done`; `Approval` is `todo!()`. -/
def Action.is_done (a : Action) (ctx : RuntimeContext) : Option (Except Error Bool) :=
  match a with
  | Action.approval _ => none
  | Action.build b => some (b.is_done ctx)
  | Action.deploy d => some (d.is_done ctx)
  | Action.teardown t => some (t.is_done ctx)

/-- Dynamic dispatch of `Perform::get_result`; `Approval` is `todo!()` and
the other three can panic on an empty result slot, both modelled by `none`. -/
def Action.get_result (a : Action) (_ctx : RuntimeContext) : Option ActionResult :=
  match a with
  | Action.approval _ => none
  | Action.build b => b.get_result
  | Action.deploy d => d.get_result
  | Action.teardown t => t.get_result

/-- `Perform::get_new_work`: the trait default returns `None` and none of
the four implementations overrides it. -/
def Action.get_new_work (_a : Action) (_ctx : RuntimeContext) : Option (List Action) :=
  none

/-- START_WAIT_TIME from state_machine.rs. -/
def START_WAIT_TIME : Nat := 10

/-- `recommended_wait` is a `u64`; arithmetic on it wraps at this modulus. -/
def U64_MOD : Nat := 2 ^ 64

/-- StateMachine from state_machine.rs. -/
structure StateMachine where
  pipeline : Pipeline
  current_action : Option Action
  recommended_wait : Nat
deriving DecidableEq

/-- StateMachine::new from state_machine.rs: build the machine with no
current action and the start wait, then set `current_action` from
`pipeline.pop_next_action()`.  No runtime context is available here, so no
Perform method can be (and none is) invoked. -/
def StateMachine.new (pipeline : Pipeline) : StateMachine :=
  let result : StateMachine :=
    { pipeline := pipeline, current_action := none, recommended_wait := START_WAIT_TIME }
  let popped := result.pipeline.pop_next_action
  { result with pipeline := popped.2, current_action := popped.1 }

/-- The observable outcome of one `tick_machine_state` call:
`Ok(bool)`, a propagated `Err`, or a panic (from `todo!()` or from the
`unwrap` inside `get_result`). -/
inductive TickOutcome
| ok (b : Bool)
| error (e : Error)
| panicked
deriving DecidableEq

/-- A record of one Perform-trait method invocation made during a tick, used
to state claims about when `start`/`is_done` are invoked. -/
inductive Event
| startCalled (a : Action)
| isDoneCalled (a : Action)
| getResultCalled (a : Action)
deriving DecidableEq

/-- StateMachine::tick_machine_state from state_machine.rs, returning the
observable outcome, the machine after the tick, and the list of Perform
methods invoked, in invocation order.  Note that the finished action is
dropped: `pipeline.complete_action` is never called on it. -/
def StateMachine.tick_machine_state (m : StateMachine) (context : RuntimeContext) :
    TickOutcome × StateMachine × List Event :=
  match m.current_action with
  | none => (TickOutcome.ok true, m, [])
  | some action =>
    match action.is_done context with
    | none => (TickOutcome.panicked, m, [Event.isDoneCalled action])
    | some (Except.error e) => (TickOutcome.error e, m, [Event.isDoneCalled action])
    | some (Except.ok false) =>
        (TickOutcome.ok false,
         { m with recommended_wait := m.recommended_wait * 3 % U64_MOD / 2 },
         [Event.isDoneCalled action])
    | some (Except.ok true) =>
      match action.get_result context with
      | none => (TickOutcome.panicked, m, [Event.isDoneCalled action, Event.getResultCalled action])
      | some result =>
        let should_cancel_pending_actions :=
          match result with
          | ActionResult.success => false
          | ActionResult.failedAllow => false
          | ActionResult.failed => true
          | ActionResult.canceled => true
        let p1 := if should_cancel_pending_actions then m.pipeline.cancel else m.pipeline
        let p2 :=
          match action.get_new_work context with
          | some actions => actions.foldl (fun (p : Pipeline) a => p.add_immediate_action a) p1
          | none => p1
        let popped := p2.pop_next_action
        match popped.1 with
        | none =>
            (TickOutcome.ok false,
             { pipeline := popped.2, current_action := none,
               recommended_wait := m.recommended_wait },
             [Event.isDoneCalled action, Event.getResultCalled action])
        | some next =>
          let m' : StateMachine :=
            { pipeline := popped.2, current_action := some next,
              recommended_wait := START_WAIT_TIME }
          match next.start context with
          | none =>
              (TickOutcome.panicked, m',
               [Event.isDoneCalled action, Event.getResultCalled action,
                Event.startCalled next])
          | some (Except.error e) =>
              (TickOutcome.error e, m',
               [Event.isDoneCalled action, Event.getResultCalled action,
                Event.startCalled next])
          | some (Except.ok _) =>
              (TickOutcome.ok true, m',
               [Event.isDoneCalled action, Event.getResultCalled action,
                Event.startCalled next])


/-- A compiled regular expression (model of the regex crate's `Regex`):
empty language, empty word, a character class given by its membership
predicate, concatenation, alternation, and Kleene star.  Literal characters
are the singleton class, `\\d`, `\\w` and bracket classes are predicate
classes. -/
inductive Rx
| zero
| epsilon
| cls (p : Char → Bool)
| comp (a b : Rx)
| alt (a b : Rx)
| star (a : Rx)

/-- Whether the regular expression accepts the empty word. -/
def Rx.nullable : Rx → Bool
| Rx.zero => false
| Rx.epsilon => true
| Rx.cls _ => false
| Rx.comp a b => a.nullable && b.nullable
| Rx.alt a b => a.nullable || b.nullable
| Rx.star _ => true

/-- Brzozowski derivative of the regular expression by a character. -/
def Rx.deriv : Rx → Char → Rx
| Rx.zero, _ => Rx.zero
| Rx.epsilon, _ => Rx.zero
| Rx.cls p, c => if p c then Rx.epsilon else Rx.zero
| Rx.comp a b, c =>
    if a.nullable then Rx.alt (Rx.comp (a.deriv c) b) (b.deriv c)
    else Rx.comp (a.deriv c) b
| Rx.alt a b, c => Rx.alt (a.deriv c) (b.deriv c)
| Rx.star a, c => Rx.comp (a.deriv c) (Rx.star a)

/-- Whole-word (anchored) matching via iterated derivatives. -/
def Rx.rmatch (r : Rx) (s : List Char) : Bool :=
  (s.foldl Rx.deriv r).nullable

/-- Model of `regex::Regex::is_match`: an unanchored search that reports
true exactly when the pattern matches some contiguous substring of the
haystack (every contiguous substring is an initial segment of some tail). -/
def Rx.is_match (r : Rx) (s : String) : Bool :=
  s.data.tails.any (fun t => t.inits.any (fun m => r.rmatch m))

/-- The singleton character class, for a literal character in a pattern. -/
def rxChar (c : Char) : Rx :=
  Rx.cls (fun x => x == c)

/-- The class `\\d` of the decimal digits. -/
def rxDigit : Rx :=
  Rx.cls (fun c => 48 ≤ c.toNat && c.toNat ≤ 57)

/-- The class `[1-9]`. -/
def rxNonZeroDigit : Rx :=
  Rx.cls (fun c => 49 ≤ c.toNat && c.toNat ≤ 57)

/-- Membership in `\\w` (word characters).  The regex crate's `\\w` is
Unicode-aware; the ASCII word characters modelled here agree with it on
every input considered in this development. -/
def isWordChar (c : Char) : Bool :=
  (48 ≤ c.toNat && c.toNat ≤ 57) || (65 ≤ c.toNat && c.toNat ≤ 90)
    || (97 ≤ c.toNat && c.toNat ≤ 122) || c.toNat == 95

/-- The class `[\\w\\.\\-_]`. -/
def rxWordDotDash : Rx :=
  Rx.cls (fun c => isWordChar c || c == Char.ofNat 46 || c == Char.ofNat 45)

/-- `r?`, i.e. `r` or the empty word. -/
def rxOpt (r : Rx) : Rx :=
  Rx.alt r Rx.epsilon

/-- The group `(0|(?:[1-9]\\d*))` of the semver pattern. -/
def rxNum : Rx :=
  Rx.alt (rxChar (Char.ofNat 48)) (Rx.comp rxNonZeroDigit (Rx.star rxDigit))

/-- The pre-release group `([\\w][\\w\\.\\-_]*)` of the semver pattern. -/
def rxPreRelease : Rx :=
  Rx.comp (Rx.cls isWordChar) (Rx.star rxWordDotDash)

/-- The compiled form (`Regex::new(SEMVER_REGEX).unwrap()`) of the constant
SEMVER_REGEX from webhook.rs:
`(0|(?:[1-9]\\d*))(?:\\.(0|(?:[1-9]\\d*))(?:\\.(0|(?:[1-9]\\d*)))?(?:\\-([\\w][\\w\\.\\-_]*))?)?`. -/
def SEMVER_RX : Rx :=
  Rx.comp rxNum
    (rxOpt (Rx.comp (rxChar (Char.ofNat 46))
      (Rx.comp rxNum
        (Rx.comp (rxOpt (Rx.comp (rxChar (Char.ofNat 46)) rxNum))
          (rxOpt (Rx.comp (rxChar (Char.ofNat 45)) rxPreRelease))))))

/-- WebhookEvent from webhook.rs: the parsed event, the application it
belongs to, and the repository url. -/
structure WebhookEvent where
  event : VcsEvent
  app : Application
  repo : String

/-- add_build_and_deploy_stages from webhook.rs.  The build action is
constructed as `Build::new(event.repo.clone(), sha.to_string())`, i.e. the
repository url is passed as `Build::new`'s first (`sha`) parameter and the
event sha as its second (`repo`) parameter.  Then, for each deploy stage in
the given order: an Approval action when the stage has an approval group,
followed by the Deploy action for the stage. -/
def add_build_and_deploy_stages (pipeline : Option Pipeline) (sha : String)
    (deploy_stages : List Stage) (event : WebhookEvent) : Pipeline :=
  let build_action := Build.new event.repo sha
  let new_pipeline := (pipeline.getD Pipeline.empty).add_action (Action.build build_action)
  deploy_stages.foldl
    (fun (np : Pipeline) stage =>
      let np :=
        match stage.approval_group with
        | some approval_group =>
            np.add_action (Action.approval
              { approval_group := approval_group
                sha := sha
                app_name := event.app.full_name
                stage_name := stage.name })
        | none => np
      np.add_action (Action.deploy (Deploy.new stage event.repo sha)))
    new_pipeline

/-- handle_tag_trigger from webhook.rs.  `compile` models `Regex::new` for
user-supplied patterns; the literal pattern string `"semver"` is replaced by
the SEMVER_REGEX constant, whose compiled form is `SEMVER_RX`.  A tag that
the pattern does not match (unanchored search) leaves the accumulated
pipeline unchanged; on a match, the stages named by the trigger are resolved
by filtering the application's stage list. -/
def handle_tag_trigger (compile : String → Rx) (pipeline : Option Pipeline)
    (event : WebhookEvent) (pattern : String) (stages : List String) :
    Option Pipeline :=
  match event.event with
  | VcsEvent.tagPush tag sha =>
      let re := if pattern == "semver" then SEMVER_RX else compile pattern
      if !(re.is_match tag) then
        pipeline
      else
        let deploy_stages := event.app.stages.filter (fun s => stages.contains s.name)
        some (add_build_and_deploy_stages pipeline sha deploy_stages event)
  | _ => pipeline

/-- handle_merge_trigger from webhook.rs.  `compile` models `Regex::new`.
The to-branch must match `to_regex` and the from-branch must match
`from_regex` (defaulted to `".*"`); the stages named by the trigger are then
resolved by filtering the application's stage list, and the build and deploy
actions are enqueued. -/
def handle_merge_trigger (compile : String → Rx) (pipeline : Option Pipeline)
    (event : WebhookEvent) (to_regex : String) (from_regex : Option String)
    (stages : List String) : Option Pipeline :=
  match event.event with
  | VcsEvent.merge to_branch from_branch sha =>
      let regex := compile to_regex
      if !(regex.is_match to_branch) then
        pipeline
      else
        let regex2 := compile (from_regex.getD ".*")
        if !(regex2.is_match from_branch) then
          pipeline
        else
          let deploy_stages := event.app.stages.filter (fun s => stages.contains s.name)
          some (add_build_and_deploy_stages pipeline sha deploy_stages event)
  | _ => pipeline


/-- A concrete account, used by the concrete evaluations below. -/
def exAccount : Account :=
  { name := "default", id := 0, regions := ["us-east-1"] }

/-- A concrete stage named "prod" without an approval group. -/
def prodStage : Stage :=
  { name := "prod", approval_group := none, account := exAccount }

/-- A concrete stage named "dev" without an approval group. -/
def devStage : Stage :=
  { name := "dev", approval_group := none, account := exAccount }

/-- A concrete application whose stage list declares "prod" before "dev". -/
def exApp : Application :=
  { org := "zprobst", app := "cloud-conveyor", accounts := [exAccount],
    default_account_index := some 0, stages := [prodStage, devStage],
    triggers := [], approval_groups := [] }

/-- A concrete repository url. -/
def rurl : String := "git@github.com:zprobst/cloud-conveyor.git"

/-- A freshly constructed build action for sha "abc": empty result slot. -/
def b0 : Build := Build.new "abc" rurl

/-- A build action whose result slot has been filled with a success. -/
def bDone : Build :=
  { sha := "abc", repo := rurl, result := some (BuildStatus.succeeded "logs") }

/-- A freshly constructed deploy action: empty result slot. -/
def d0 : Deploy := Deploy.new prodStage rurl "abc"

/-- A freshly constructed teardown action: empty result slot. -/
def t0 : Teardown := Teardown.new prodStage rurl

/-- A runtime context whose substrates all report a terminal state. -/
def ctxDone : RuntimeContext :=
  { start_build := fun _ => Except.ok ()
    check_build := fun _ => Except.ok (BuildStatus.succeeded "logs")
    start_deployment := fun _ => Except.ok ()
    check_deployment := fun _ => Except.ok DeployStatus.complete
    start_teardown := fun _ => Except.ok ()
    check_teardown := fun _ => Except.ok TeardownStatus.complete }

/-- A runtime context whose substrates all report `Pending`. -/
def ctxAllPending : RuntimeContext :=
  { start_build := fun _ => Except.ok ()
    check_build := fun _ => Except.ok BuildStatus.pending
    start_deployment := fun _ => Except.ok ()
    check_deployment := fun _ => Except.ok DeployStatus.pending
    start_teardown := fun _ => Except.ok ()
    check_teardown := fun _ => Except.ok TeardownStatus.pending }

/-- A pipeline holding the single completed-status build action. -/
def pB2 : Pipeline := Pipeline.empty.add_action (Action.build bDone)

/-- A pipeline holding the single fresh build action. -/
def pB3 : Pipeline := Pipeline.empty.add_action (Action.build b0)

/-- A first distinct build action for the queue-order evaluations. -/
def a4 : Action := Action.build (Build.new "sha-a" "repo-a")

/-- A second distinct build action for the queue-order evaluations. -/
def b4 : Action := Action.build (Build.new "sha-b" "repo-b")

/-- `Pipeline::empty().add_action(b4).add_immediate_action(a4)`. -/
def p4 : Pipeline := (Pipeline.empty.add_action b4).add_immediate_action a4

/-- A pipeline whose back pending action is the completed-status build and
whose front pending action is the fresh build. -/
def pB5 : Pipeline :=
  (Pipeline.empty.add_action (Action.build b0)).add_action (Action.build bDone)

/-- A pull-request-created event for PR 2 with sha "abc". -/
def evPr : WebhookEvent :=
  { event := VcsEvent.pullRequestCreate "changes" 2 "abc", app := exApp, repo := rurl }

/-- A merge event into "master" with sha "abc". -/
def evMerge : WebhookEvent :=
  { event := VcsEvent.merge "master" "feature/x" "abc", app := exApp, repo := rurl }

/-- A tag-push event for the non-semver tag "v1.2.3". -/
def evTagGood : WebhookEvent :=
  { event := VcsEvent.tagPush "v1.2.3" "sha-t", app := exApp, repo := rurl }

/-- A tag-push event for the tag "v-hello", which contains no digit. -/
def evTagBad : WebhookEvent :=
  { event := VcsEvent.tagPush "v-hello" "sha-t", app := exApp, repo := rurl }

/-- A model of `Regex::new` adequate for the pattern `".*"`: `.` matches any
character (up to the newline caveat, irrelevant on the branch names used
here), so the compiled automaton accepts everything. -/
def compileAll : String → Rx := fun _ => Rx.star (Rx.cls (fun _ => true))

/-- The pipelines produced by the Pipeline API of pipelining.rs: everything
obtainable from `Pipeline::empty()` by the five exported operations. -/
inductive Reachable : Pipeline → Prop
| empty : Reachable Pipeline.empty
| add_action {p : Pipeline} (a : Action) : Reachable p → Reachable (p.add_action a)
| add_immediate_action {p : Pipeline} (a : Action) :
    Reachable p → Reachable (p.add_immediate_action a)
| pop_next_action {p : Pipeline} : Reachable p → Reachable (p.pop_next_action).2
| complete_action {p : Pipeline} (a : Action) (r : ActionResult) :
    Reachable p → Reachable (p.complete_action a r)
| cancel {p : Pipeline} : Reachable p → Reachable p.cancel


/-- Popping an action: the returned pipeline has one pending action fewer
and untouched history lists. -/
theorem pop_some_spec {p : Pipeline} {a : Action} {p' : Pipeline}
    (h : p.pop_next_action = (some a, p')) :
    p'.pending_actions.length + 1 = p.pending_actions.length
      ∧ p'.completed_actions = p.completed_actions
      ∧ p'.action_results = p.action_results := by
  unfold Pipeline.pop_next_action at h
  cases hl : p.pending_actions.getLast? with
  | none => rw [hl] at h; simp at h
  | some b =>
    rw [hl] at h
    simp only [Prod.mk.injEq, Option.some.injEq] at h
    obtain ⟨hba, hp⟩ := h
    rw [← hp]
    have hne : p.pending_actions ≠ [] := by
      intro hnil; rw [hnil] at hl; simp at hl
    have hpos : 0 < p.pending_actions.length := List.length_pos.mpr hne
    refine ⟨?_, rfl, rfl⟩
    simp only [List.length_dropLast]
    omega

/-- Popping from an empty pending list returns the pipeline unchanged. -/
theorem pop_none_spec {p : Pipeline} {p' : Pipeline}
    (h : p.pop_next_action = (none, p')) : p' = p := by
  unfold Pipeline.pop_next_action at h
  cases hl : p.pending_actions.getLast? with
  | none => rw [hl] at h; simp only [Prod.mk.injEq] at h; exact h.2.symm
  | some b => rw [hl] at h; simp at h

/-- `Pipeline::cancel` preserves equality of the history lengths. -/
theorem cancel_hist_len : ∀ (n : Nat) (p : Pipeline), p.pending_actions.length = n →
    p.completed_actions.length = p.action_results.length →
    p.cancel.completed_actions.length = p.cancel.action_results.length := by
  intro n
  induction n using Nat.strong_induction_on with
  | _ n ih =>
    intro p hn hinv
    rw [Pipeline.cancel]
    split
    case _ a p' heq =>
      obtain ⟨hlen, hcomp, hres⟩ := pop_some_spec heq
      apply ih p'.pending_actions.length (by omega) _ (by simp [Pipeline.complete_action])
      simp [Pipeline.complete_action, hcomp, hres, hinv]
    case _ o ho => exact hinv

/-- A tick whose current action reports not-done multiplies the wait by 3
and divides by 2, in wrapping u64 arithmetic. -/
theorem tick_wait_growth (m : StateMachine) (ctx : RuntimeContext) (a : Action)
    (hcur : m.current_action = some a)
    (hdone : a.is_done ctx = some (Except.ok false)) :
    (m.tick_machine_state ctx).2.1.recommended_wait
      = m.recommended_wait * 3 % U64_MOD / 2 := by
  simp [StateMachine.tick_machine_state, hcur, hdone]

/-- Whenever a tick dispatches a new action (a `start` invocation appears in
its trace), the machine's wait after the tick is the start value. -/
theorem tick_wait_reset_on_dispatch (m : StateMachine) (ctx : RuntimeContext)
    (h : ∃ x, Event.startCalled x ∈ (m.tick_machine_state ctx).2.2) :
    (m.tick_machine_state ctx).2.1.recommended_wait = START_WAIT_TIME := by
  obtain ⟨x, hx⟩ := h
  cases hcur : m.current_action with
  | none => simp [StateMachine.tick_machine_state, hcur] at hx
  | some a =>
    cases hdone : a.is_done ctx with
    | none => simp [StateMachine.tick_machine_state, hcur, hdone] at hx
    | some r =>
      cases r with
      | error e => simp [StateMachine.tick_machine_state, hcur, hdone] at hx
      | ok b =>
        cases b with
        | false => simp [StateMachine.tick_machine_state, hcur, hdone] at hx
        | true =>
          cases hres : a.get_result ctx with
          | none => simp [StateMachine.tick_machine_state, hcur, hdone, hres] at hx
          | some result =>
            rcases hpop : (((if (match result with
                | ActionResult.success => false
                | ActionResult.failedAllow => false
                | ActionResult.failed => true
                | ActionResult.canceled => true) then m.pipeline.cancel
                else m.pipeline)).pop_next_action) with ⟨o, p3⟩
            cases o with
            | none =>
                simp [StateMachine.tick_machine_state, hcur, hdone, hres,
                  Action.get_new_work, hpop] at hx
            | some next =>
                cases hstart : next.start ctx with
                | none =>
                    simp [StateMachine.tick_machine_state, hcur, hdone, hres,
                      Action.get_new_work, hpop, hstart]
                | some s =>
                    cases s <;>
                      simp [StateMachine.tick_machine_state, hcur, hdone, hres,
                        Action.get_new_work, hpop, hstart]

/-- Claim C1.  The claim states that the Build action enqueued by
`add_build_and_deploy_stages` carries `sha` equal to the event's commit sha
and `repo` equal to the event's repository url.  Evaluating the helper at
the failing input (sha "abc", repository `rurl`) shows the opposite: the
call `Build::new(event.repo.clone(), sha.to_string())` transposes the two
arguments of `Build::new(sha, repo)`, so the enqueued Build carries
`sha = rurl` and `repo = "abc"`. -/
theorem C1_build_enqueued_with_swapped_fields :
    (add_build_and_deploy_stages none "abc" [] evPr).pending_actions
      = [Action.build { sha := rurl, repo := "abc", result := none }]
    ∧ rurl ≠ "abc" :=
  ⟨rfl, by decide⟩

/-- Claim C2.  The claim states that a tick observing the current action
done with result r appends that action together with r to the completed
history.  Evaluating a tick on a machine whose single current action is
done with result `Success` shows that `tick_machine_state` never calls
`complete_action` on the finished action: both history lists stay empty and
the result is discarded. -/
theorem C2_tick_discards_finished_action :
    (Action.build bDone).is_done ctxDone = some (Except.ok true)
    ∧ (Action.build bDone).get_result ctxDone = some ActionResult.success
    ∧ (StateMachine.new pB2).current_action = some (Action.build bDone)
    ∧ ((StateMachine.new pB2).tick_machine_state ctxDone).2.1.pipeline.completed_actions = []
    ∧ ((StateMachine.new pB2).tick_machine_state ctxDone).2.1.pipeline.action_results = [] :=
  ⟨rfl, rfl, rfl, rfl, rfl⟩

/-- Claim C3.  The claim states that every action is started exactly once
and in particular that the first action popped at machine creation is
started before it is polled with `is_done`.  `StateMachine::new` takes no
runtime context and performs no Perform call, and the first tick's trace on
the fresh machine is exactly one `is_done` poll of the first action with no
`start` invocation: the first action is polled without ever being started. -/
theorem C3_first_action_polled_without_start :
    (StateMachine.new pB3).current_action = some (Action.build b0)
    ∧ ((StateMachine.new pB3).tick_machine_state ctxAllPending).2.2
        = [Event.isDoneCalled (Action.build b0)]
    ∧ Event.startCalled (Action.build b0) ∉
        ((StateMachine.new pB3).tick_machine_state ctxAllPending).2.2 :=
  ⟨rfl, rfl, by decide⟩

/-- Claim C4.  The claim states that `pop_next_action` removes the front of
the pending list and that a pop immediately after `add_immediate_action(a)`
returns `a`.  Evaluating on
`Pipeline::empty().add_action(b4).add_immediate_action(a4)`, whose pending
list is `[a4, b4]`, shows `pop_next_action` returning the back element
`b4`, not the freshly prepended `a4`: `Vec::pop` removes from the back. -/
theorem C4_pop_returns_back_not_immediate :
    p4.pending_actions = [a4, b4]
    ∧ (p4.pop_next_action).1 = some b4
    ∧ b4 ≠ a4 :=
  ⟨rfl, rfl, by decide⟩

/-- Claim C5.  The claim states that when `is_done` of Build, Deploy or
Teardown returns `Ok(true)` the substrate result has been cached into the
action's result slot, so `get_result`'s unwrap cannot fail.  Evaluating the
three implementations on fresh actions against substrates reporting
terminal states shows `is_done` returning `Ok(true)` while the result slot
is still empty (no implementation writes it), so `get_result` hits the
`unwrap` panic (modelled by `none`). -/
theorem C5_is_done_true_result_slot_empty :
    (b0.result = none ∧ Build.is_done b0 ctxDone = Except.ok true
      ∧ Build.get_result b0 = none)
    ∧ (d0.result = none ∧ Deploy.is_done d0 ctxDone = Except.ok true
      ∧ Deploy.get_result d0 = none)
    ∧ (t0.result = none ∧ Teardown.is_done t0 ctxDone = Except.ok true
      ∧ Teardown.get_result t0 = none) :=
  ⟨⟨rfl, rfl, rfl⟩, ⟨rfl, rfl, rfl⟩, ⟨rfl, rfl, rfl⟩⟩

/-- Claim C6.  The claim states that a Merge or Tag trigger naming stages
s1…sk resolves them in the trigger-declared order, so Deploy(si) precedes
Deploy(sj) for i<j.  Evaluating `handle_merge_trigger` on an application
declaring stages `[prod, dev]` and a trigger declaring `["dev", "prod"]`
produces Deploy(prod) before Deploy(dev): the resolution
`app.stages.iter().filter(...)` preserves the application's order, not the
trigger's. -/
theorem C6_merge_stages_resolved_in_app_order :
    devStage.name = "dev"
    ∧ prodStage.name = "prod"
    ∧ exApp.stages = [prodStage, devStage]
    ∧ handle_merge_trigger compileAll none evMerge ".*" none ["dev", "prod"]
        = some { pending_actions :=
                   [Action.build { sha := rurl, repo := "abc", result := none },
                    Action.deploy (Deploy.new prodStage rurl "abc"),
                    Action.deploy (Deploy.new devStage rurl "abc")]
                 completed_actions := []
                 action_results := [] } :=
  ⟨rfl, rfl, rfl, by decide⟩

/-- Claim C7.  The state machine's recommended_wait starts at the constant
START_WAIT_TIME = 10; a tick whose current action reports not-done updates
it to `wait * 3 / 2` in u64 arithmetic (so 10 becomes 15); and any tick
that dispatches (starts) a newly popped action resets it to the start
value. -/
theorem C7_recommended_wait_dynamics :
    (∀ p : Pipeline, (StateMachine.new p).recommended_wait = START_WAIT_TIME)
    ∧ START_WAIT_TIME = 10
    ∧ (∀ (m : StateMachine) (ctx : RuntimeContext) (a : Action),
        m.current_action = some a →
        a.is_done ctx = some (Except.ok false) →
        (m.tick_machine_state ctx).2.1.recommended_wait
          = m.recommended_wait * 3 % U64_MOD / 2)
    ∧ 10 * 3 % U64_MOD / 2 = 15
    ∧ (∀ (m : StateMachine) (ctx : RuntimeContext),
        (∃ x, Event.startCalled x ∈ (m.tick_machine_state ctx).2.2) →
        (m.tick_machine_state ctx).2.1.recommended_wait = START_WAIT_TIME) :=
  ⟨fun _ => rfl, rfl, tick_wait_growth, by decide, tick_wait_reset_on_dispatch⟩

/-- Claim C7, witness: on a concrete fresh machine the wait starts at 10, a
pending tick grows it to 15, and a dispatching tick resets it to the start
value. -/
theorem C7_recommended_wait_dynamics_witness :
    (StateMachine.new pB3).recommended_wait = 10
    ∧ ((StateMachine.new pB3).tick_machine_state ctxAllPending).2.1.recommended_wait = 15
    ∧ ((StateMachine.new pB5).tick_machine_state ctxDone).2.1.recommended_wait
        = START_WAIT_TIME := by
  refine ⟨(C7_recommended_wait_dynamics.1 pB3).trans C7_recommended_wait_dynamics.2.1, ?_, ?_⟩
  · have h := C7_recommended_wait_dynamics.2.2.1 (StateMachine.new pB3) ctxAllPending
      (Action.build b0) rfl rfl
    rw [h]
    rfl
  · exact C7_recommended_wait_dynamics.2.2.2.2 (StateMachine.new pB5) ctxDone
      ⟨Action.build b0, by decide⟩

/-- Claim C8.  Every Pipeline operation preserves the invariant that the
completed-actions list and the action-results list have equal length, so
every pipeline reachable through the Pipeline API (in particular every
pipeline in a terminal state) satisfies `|completed| == |results|`. -/
theorem C8_pipeline_history_lengths_equal :
    ∀ p : Pipeline, Reachable p →
      p.completed_actions.length = p.action_results.length := by
  intro p hp
  induction hp with
  | empty => rfl
  | add_action a hp ih =>
      unfold Pipeline.add_action
      split <;> simpa using ih
  | add_immediate_action a hp ih => simpa [Pipeline.add_immediate_action] using ih
  | pop_next_action hp ih =>
      rename_i q
      rcases hpop : q.pop_next_action with ⟨o, q'⟩
      cases o with
      | none =>
          have hq := pop_none_spec hpop
          subst hq
          simpa using ih
      | some a =>
          obtain ⟨hlen, hcomp, hres⟩ := pop_some_spec hpop
          simpa [hcomp, hres] using ih
  | complete_action a r hp ih => simp [Pipeline.complete_action, ih]
  | cancel hp ih => exact cancel_hist_len _ _ rfl ih

/-- Claim C8, witness: a pipeline built by add, pop, complete and cancel
operations from empty has history lists of equal length. -/
theorem C8_pipeline_history_lengths_equal_witness :
    (((Pipeline.empty.add_action a4).add_action b4).cancel).completed_actions.length
      = (((Pipeline.empty.add_action a4).add_action b4).cancel).action_results.length :=
  C8_pipeline_history_lengths_equal _
    (Reachable.cancel (Reachable.add_action b4 (Reachable.add_action a4 Reachable.empty)))

/-- Claim C9, counterexample: two Build actions with equal carried fields
(sha "abc", repo "r") but different result slots compare unequal under the
pipeline's dedup equality, so the result slot is not excluded from value
equality. -/
theorem C9_result_slot_breaks_equality :
    box_eq (Action.build { sha := "abc", repo := "r", result := none })
        (Action.build { sha := "abc", repo := "r",
                        result := some (BuildStatus.succeeded "logs") })
      = false := by decide

/-- Claim C9, amended: the dedup equality on actions is full structural
equality — two actions compare equal iff they are the same variant and all
fields, the result slot included, compare equal. -/
theorem C9_box_eq_iff_structural_eq :
    ∀ a b : Action, box_eq a b = true ↔ a = b := by
  intro a b
  cases a <;> cases b <;> (try (rename_i x y; cases x; cases y)) <;>
    simp [box_eq, and_assoc]

/-- Claim C10.  Tag matching is an unanchored search: the whole tag
"v1.2.3" is not in the semver language (anchored match fails), yet
`is_match` finds the substring "1.2.3" and a pipeline is produced, while
"v-hello" has no matching substring and is dropped; in general a TagPush
under pattern "semver" produces the build-and-deploy pipeline exactly when
the compiled semver pattern matches some substring of the tag. -/
theorem C10_tag_matching_unanchored_search :
    SEMVER_RX.rmatch "v1.2.3".data = false
    ∧ SEMVER_RX.is_match "v1.2.3" = true
    ∧ SEMVER_RX.is_match "v-hello" = false
    ∧ (∀ (compile : String → Rx) (pl : Option Pipeline) (ev : WebhookEvent)
        (tag sha : String) (stages : List String),
        ev.event = VcsEvent.tagPush tag sha →
        SEMVER_RX.is_match tag = true →
        handle_tag_trigger compile pl ev "semver" stages
          = some (add_build_and_deploy_stages pl sha
              (ev.app.stages.filter (fun s => stages.contains s.name)) ev))
    ∧ (∀ (compile : String → Rx) (pl : Option Pipeline) (ev : WebhookEvent)
        (tag sha : String) (stages : List String),
        ev.event = VcsEvent.tagPush tag sha →
        SEMVER_RX.is_match tag = false →
        handle_tag_trigger compile pl ev "semver" stages = pl) := by
  refine ⟨by decide, by decide, by decide, ?_, ?_⟩
  · intro compile pl ev tag sha stages hev hm
    simp [handle_tag_trigger, hev, hm]
  · intro compile pl ev tag sha stages hev hm
    simp [handle_tag_trigger, hev, hm]

/-- Claim C10, witness: the semver trigger on tag "v1.2.3" produces the
build-and-deploy pipeline for stage "prod", and on tag "v-hello" leaves the
accumulator (none) unchanged. -/
theorem C10_tag_matching_unanchored_search_witness :
    handle_tag_trigger compileAll none evTagGood "semver" ["prod"]
      = some (add_build_and_deploy_stages none "sha-t" [prodStage] evTagGood)
    ∧ handle_tag_trigger compileAll none evTagBad "semver" ["prod"] = none := by
  constructor
  · have h := C10_tag_matching_unanchored_search.2.2.2.1 compileAll none evTagGood
      "v1.2.3" "sha-t" ["prod"] rfl (by decide)
    rw [h]
    rfl
  · exact C10_tag_matching_unanchored_search.2.2.2.2 compileAll none evTagBad
      "v-hello" "sha-t" ["prod"] rfl (by decide)

end CC
